import Mathlib

/-!
Verification of the OTP issuance/verification core of `src/main.py`
(FastAPI backend).  The HTTP layer, CORS and diagnostics endpoints are
peripheral; the embedded core is `send_otp` and `verify_otp` together
with the persisted `otp` collection.

Modelling conventions:
* Time is an integer count of seconds (UTC instants); `timedelta(minutes=10)`
  is `600`.
* Randomness (`uuid.uuid4()`) is an explicit parameter: the random integer
  feeding code generation, and the session token string.
* The document store (`database.py`, absent from the sources; a generic
  CRUD/document interface per the spec) is a list of records in insertion
  order; `find_one` returns the first match in that order, `create_document`
  appends and stamps storage id and `created_at`, `update_one` with a `$set`
  on an `_id` filter rewrites only the listed fields of the first record
  with that id.
* `datetime.fromisoformat` is an explicit parameter
  `parse : String → Option Int` (`none` = the library raises).
* Python truthiness of the loosely typed `expires_at` field is modelled on
  the three shapes the field can take: absent/`None`, a native timestamp,
  or a string.
-/

namespace OtpCore

/-- Python `str.strip` on the character list: drop whitespace from both
ends (the source only ever strips ASCII-whitespace-delimited input). -/
def stripL (l : List Char) : List Char :=
  (l.dropWhile Char.isWhitespace).rdropWhile Char.isWhitespace

/-- Python `str.strip()`, as used on `body.identifier` (src/main.py
lines 51 and 91). -/
def strip (s : String) : String :=
  String.mk (stripL s.data)

/-- Python `str.lower()`, as used on the stored and queried identifiers
(src/main.py lines 72 and 94): per-character lower-casing. -/
def lower (s : String) : String :=
  String.mk (s.data.map Char.toLower)

/-- `via` / `channel` of a record: `Literal["email", "phone"]`. -/
inductive Channel
  | email
  | phone
deriving DecidableEq, Repr

/-- A value of the loosely typed stored `expires_at` field: absent or
`None`, a native (datetime) timestamp, or a string. -/
inductive StoredVal
  | null
  | time (t : Int)
  | str (s : String)
deriving DecidableEq, Repr

/-- A persisted document of the `otp` collection (spec §3 `OtpRecord`).
`id` is the storage-assigned `_id`; `created_at`/`updated_at` are the
storage-level timestamps of spec §3. -/
structure OtpRecord where
  id : Nat
  identifier : String
  via : Channel
  code : String
  consumed : Bool
  expires_at : StoredVal
  created_at : Int
  updated_at : Option Int
deriving DecidableEq, Repr

/-- Outcome of `POST /send-otp`. -/
inductive SendResult
  | sent (debug_code : String)
  | invalidIdentifier
deriving DecidableEq, Repr

/-- Outcome of `POST /verify-otp`.  `typeError` is the uncaught
`TypeError` raised by `datetime > str` on line 125 when a string-typed
`expires_at` survives the `fromisoformat` attempt (surfaces as HTTP 500). -/
inductive VerifyResult
  | verified (token : String)
  | invalidCode
  | codeAlreadyUsed
  | codeExpired
  | typeError
deriving DecidableEq, Repr

/-- `is_valid_phone`, src/main.py lines 34-36:
`re.fullmatch(r"(\+?\d{10,15})", value.strip())` — after trimming, an
optional leading `+` followed by 10 to 15 digits and nothing else. -/
def is_valid_phone (value : String) : Bool :=
  let s := (strip value).data
  let ds := if s.head? = some '+' then s.tail else s
  decide (10 ≤ ds.length) && decide (ds.length ≤ 15) && ds.all (fun c => c.isDigit)

/-- Modelled from the spec: the email validation `send_otp` delegates to
the external pydantic `EmailStr` validator (src/main.py line 56,
"Validate email strictly").  The spec characterises acceptance as
"local-part@domain, domain containing at least one dot", with both parts
nonempty and a single `@`. -/
def is_valid_email (s : String) : Bool :=
  let l := s.data
  let loc := l.takeWhile (fun c => c ≠ '@')
  let domain := (l.dropWhile (fun c => c ≠ '@')).drop 1
  decide (l.count '@' = 1) && decide (loc ≠ []) && decide (domain ≠ []) && domain.contains '.'

/-- Code generation, src/main.py line 64:
`f"{uuid.uuid4().int % 1000000:06d}"` — the random integer reduced
mod 1000000 and zero-padded to six digits. -/
def genCode (rand : Nat) : String :=
  let s := toString (rand % 1000000)
  String.mk (List.replicate (6 - s.length) '0' ++ s.data)

/-- Ten minutes, in seconds: `timedelta(minutes=10)`. -/
def tenMinutes : Int := 600

/-- Modelled from the spec: `create_document` of the absent `database.py`
(the generic CRUD interface of spec §2/§6).  Storage appends the new
document; the caller has already stamped the storage id and `created_at`. -/
def create_document (st : List OtpRecord) (doc : OtpRecord) : List OtpRecord :=
  st ++ [doc]

/-- `POST /send-otp` (src/main.py lines 49-86).  `now` is the current UTC
time, `rand` the random integer behind the code, `newId` the storage id
the store will assign.  Returns the HTTP-level outcome and the store
after the call. -/
def send_otp (now : Int) (rand : Nat) (newId : Nat) (st : List OtpRecord)
    (identifier0 : String) (via : Channel) : SendResult × List OtpRecord :=
  let identifier := strip identifier0
  if (if via = Channel.email then !(is_valid_email identifier) else !(is_valid_phone identifier)) then
    (SendResult.invalidIdentifier, st)
  else
    let code := genCode rand
    let expires_at := now + tenMinutes
    let st' := create_document st
      { id := newId
        identifier := if via = Channel.email then lower identifier else identifier
        via := via
        code := code
        consumed := false
        expires_at := StoredVal.time expires_at
        created_at := now
        updated_at := none }
    (SendResult.sent code, st')

/-- The `find_one` filter of src/main.py lines 100-111: `identifier`
equals the lower-cased or the untransformed trimmed submission, and
`code` equals the submitted otp. -/
def otpQuery (identifier otp : String) (r : OtpRecord) : Bool :=
  (r.identifier == lower (strip identifier) || r.identifier == strip identifier) && r.code == otp

/-- The `isinstance(expires_at, str)` / `fromisoformat` step of
src/main.py lines 119-124: a string value is replaced by its parse when
parsing succeeds and kept (the `except: pass`) when it fails. -/
def parseStep (parse : String → Option Int) : StoredVal → StoredVal
  | StoredVal.str s =>
    match parse s with
    | some t => StoredVal.time t
    | none => StoredVal.str s
  | v => v

/-- Result of the expiry guard. -/
inductive ExpiryCheck
  | expired
  | ok
  | typeErr
deriving DecidableEq, Repr

/-- Line 125, `if not expires_at or datetime.now(timezone.utc) > expires_at`:
`None` is falsy, a datetime is truthy and ordered against `now`, a
(surviving, unparseable) string is falsy exactly when empty and otherwise
makes the `>` comparison raise `TypeError`. -/
def truthyExpiryCheck (now : Int) : StoredVal → ExpiryCheck
  | StoredVal.null => ExpiryCheck.expired
  | StoredVal.time t => if now > t then ExpiryCheck.expired else ExpiryCheck.ok
  | StoredVal.str s => if s = "" then ExpiryCheck.expired else ExpiryCheck.typeErr

/-- What a `verify-otp` call decides from its read of the store: fail with
a result, or consume the record with the given storage id and succeed. -/
inductive Decision
  | fail (r : VerifyResult)
  | consume (docId : Nat)
deriving DecidableEq, Repr

/-- The read/decide phase of `POST /verify-otp` (src/main.py lines 90-126):
everything up to and including the expiry guard, computed from one
snapshot of the store. -/
def verifyDecide (parse : String → Option Int) (now : Int)
    (st : List OtpRecord) (identifier otp : String) : Decision :=
  match st.find? (otpQuery identifier otp) with
  | none => Decision.fail VerifyResult.invalidCode
  | some doc =>
    if doc.consumed then Decision.fail VerifyResult.codeAlreadyUsed
    else
      match truthyExpiryCheck now (parseStep parse doc.expires_at) with
      | ExpiryCheck.expired => Decision.fail VerifyResult.codeExpired
      | ExpiryCheck.typeErr => Decision.fail VerifyResult.typeError
      | ExpiryCheck.ok => Decision.consume doc.id

/-- The write phase, src/main.py line 129:
`update_one({"_id": doc["_id"]}, {"$set": {"consumed": True, "updated_at": now}})`
— rewrite only `consumed` and `updated_at` of the first document whose id
matches the filter. -/
def set_consumed (docId : Nat) (now : Int) : List OtpRecord → List OtpRecord
  | [] => []
  | r :: rs =>
    if r.id = docId then { r with consumed := true, updated_at := some now } :: rs
    else r :: set_consumed docId now rs

/-- The HTTP-level outcome a decision produces: a failure propagates its
error, a consuming decision returns `verified` with the fresh session
token (`uuid.uuid4().hex`, the explicit `token` parameter). -/
def decisionResult (token : String) : Decision → VerifyResult
  | Decision.fail r => r
  | Decision.consume _ => VerifyResult.verified token

/-- The store after a decision is committed: a failure leaves the store
alone, a consuming decision performs the line-129 update. -/
def decisionCommit (now : Int) (st : List OtpRecord) : Decision → List OtpRecord
  | Decision.fail _ => st
  | Decision.consume docId => set_consumed docId now st

/-- `POST /verify-otp` (src/main.py lines 89-134): the decide phase
followed by the commit of its decision. -/
def verify_otp (parse : String → Option Int) (now : Int) (token : String)
    (st : List OtpRecord) (identifier otp : String) : VerifyResult × List OtpRecord :=
  let dec := verifyDecide parse now st identifier otp
  (decisionResult token dec, decisionCommit now st dec)

/-- Two `verify-otp` calls racing on the same store snapshot, under the
schedule the code permits: both perform their `find_one` read and their
checks before either performs the line-129 `update_one` write (the
consume step is a plain read followed by an unconditional `$set` filtered
only on `_id`, not a compare-and-swap on `consumed`). -/
def verifyRace (parse : String → Option Int) (now1 now2 : Int) (tok1 tok2 : String)
    (st : List OtpRecord) (identifier otp : String) :
    VerifyResult × VerifyResult × List OtpRecord :=
  let d1 := verifyDecide parse now1 st identifier otp
  let d2 := verifyDecide parse now2 st identifier otp
  let st1 := decisionCommit now1 st d1
  let st2 := decisionCommit now2 st1 d2
  (decisionResult tok1 d1, decisionResult tok2 d2, st2)

/-- The phone syntax stated by the spec (§4.1): after trimming, an
optional leading `+` followed by 10 to 15 decimal digits and nothing
else. -/
def PhoneSpec (s : String) : Prop :=
  ∃ ds : List Char, ((strip s).data = ds ∨ (strip s).data = '+' :: ds)
    ∧ 10 ≤ ds.length ∧ ds.length ≤ 15 ∧ ∀ c ∈ ds, c.isDigit = true

/-- A sample stored record, used by the concrete witnesses below. -/
def sampleRec : OtpRecord :=
  { id := 1, identifier := "user@example.com", via := Channel.email, code := "004213",
    consumed := false, expires_at := StoredVal.time 600, created_at := 0, updated_at := none }

/-- A sample stored record whose expiry field is an unparseable
non-empty string. -/
def badExpiryRec : OtpRecord :=
  { sampleRec with expires_at := StoredVal.str "not-a-timestamp" }

/-- A second sample record, bound to a different identifier and code. -/
def otherRec : OtpRecord :=
  { id := 2, identifier := "+15551234567", via := Channel.phone, code := "999999",
    consumed := false, expires_at := StoredVal.time 600, created_at := 0, updated_at := none }

/-! ### Helper lemmas -/

/-- Stripping at the list level is idempotent. -/
theorem stripL_idem (l : List Char) : stripL (stripL l) = stripL l := by
  unfold stripL
  have h1 : List.dropWhile Char.isWhitespace (l.dropWhile Char.isWhitespace)
      = l.dropWhile Char.isWhitespace := List.dropWhile_idempotent _ _
  have h2 : List.dropWhile Char.isWhitespace
      ((l.dropWhile Char.isWhitespace).rdropWhile Char.isWhitespace)
      = (l.dropWhile Char.isWhitespace).rdropWhile Char.isWhitespace := by
    cases hu : (l.dropWhile Char.isWhitespace).rdropWhile Char.isWhitespace with
    | nil => simp
    | cons c cs =>
      obtain ⟨rest, hr⟩ := List.rdropWhile_prefix Char.isWhitespace (l.dropWhile Char.isWhitespace)
      rw [hu] at hr
      have hpc : c.isWhitespace = false := by
        have h3 := List.head?_dropWhile_not Char.isWhitespace l
        rw [← hr] at h3
        simpa using h3
      simp [List.dropWhile_cons, hpc]
  rw [h2, List.rdropWhile_idempotent]

/-- Python `strip` is idempotent: `send_otp` strips once on line 51 and
`is_valid_phone` strips again on line 36. -/
theorem strip_strip (s : String) : strip (strip s) = strip s :=
  congrArg String.mk (stripL_idem s.data)

/-- `find_one` on a store decomposed around the first matching record. -/
theorem find?_middle (p : OtpRecord → Bool) (pre post : List OtpRecord) (r : OtpRecord)
    (hpre : ∀ x ∈ pre, p x = false) (hr : p r = true) :
    (pre ++ r :: post).find? p = some r := by
  induction pre with
  | nil => simp [List.find?_cons, hr]
  | cons a as ih =>
    have ha : p a = false := hpre a (List.mem_cons_self a as)
    simp only [List.cons_append, List.find?_cons, ha]
    exact ih (fun x hx => hpre x (List.mem_cons_of_mem a hx))

/-- `update_one` on a store decomposed around the first record whose id
matches the filter. -/
theorem set_consumed_middle (d : Nat) (n : Int) (pre post : List OtpRecord) (r : OtpRecord)
    (hpre : ∀ x ∈ pre, x.id ≠ d) (hr : r.id = d) :
    set_consumed d n (pre ++ r :: post)
      = pre ++ { r with consumed := true, updated_at := some n } :: post := by
  induction pre with
  | nil => simp [set_consumed, hr]
  | cons a as ih =>
    have ha : a.id ≠ d := hpre a (List.mem_cons_self a as)
    simp only [List.cons_append, set_consumed, if_neg ha]
    exact congrArg (a :: ·) (ih (fun x hx => hpre x (List.mem_cons_of_mem a hx)))

/-- The consuming update never inserts or deletes records. -/
theorem set_consumed_length (d : Nat) (n : Int) (st : List OtpRecord) :
    (set_consumed d n st).length = st.length := by
  induction st with
  | nil => rfl
  | cons a as ih =>
    by_cases h : a.id = d <;> simp [set_consumed, h, ih]

/-- The consuming update only ever turns `consumed` on, positionally:
a record already consumed stays consumed. -/
theorem set_consumed_mono (d : Nat) (n : Int) (st : List OtpRecord)
    (i : Nat) (r r' : OtpRecord)
    (hr : st[i]? = some r) (hr' : (set_consumed d n st)[i]? = some r')
    (hc : r.consumed = true) : r'.consumed = true := by
  induction st generalizing i with
  | nil => simp at hr
  | cons a as ih =>
    by_cases ha : a.id = d
    · cases i with
      | zero =>
        simp [set_consumed, ha] at hr'
        rw [← hr']
      | succ j =>
        simp only [set_consumed, if_pos ha, List.getElem?_cons_succ] at hr hr'
        rw [hr] at hr'
        cases hr'
        exact hc
    · cases i with
      | zero =>
        simp only [set_consumed, if_neg ha, List.getElem?_cons_zero] at hr hr'
        cases hr
        cases hr'
        exact hc
      | succ j =>
        simp only [set_consumed, if_neg ha, List.getElem?_cons_succ] at hr hr'
        exact ih j hr hr'

/-- Evaluation of a `verify-otp` call once `find_one` has produced a
document: the remaining checks run on that document alone. -/
theorem verify_otp_found (parse : String → Option Int) (now : Int) (token : String)
    (st : List OtpRecord) (idf otp : String) (r : OtpRecord)
    (hfind : st.find? (otpQuery idf otp) = some r) :
    verify_otp parse now token st idf otp =
      if r.consumed then (VerifyResult.codeAlreadyUsed, st)
      else
        match truthyExpiryCheck now (parseStep parse r.expires_at) with
        | ExpiryCheck.expired => (VerifyResult.codeExpired, st)
        | ExpiryCheck.typeErr => (VerifyResult.typeError, st)
        | ExpiryCheck.ok => (VerifyResult.verified token, set_consumed r.id now st) := by
  unfold verify_otp verifyDecide
  rw [hfind]
  cases hc : r.consumed with
  | true => simp [hc, decisionResult, decisionCommit]
  | false =>
    cases h : truthyExpiryCheck now (parseStep parse r.expires_at) <;>
      simp [hc, h, decisionResult, decisionCommit]

/-- The store after a `send-otp` call: unchanged on a validation
failure, and otherwise extended by exactly the new record. -/
theorem send_otp_store (now : Int) (rand newId : Nat) (st : List OtpRecord)
    (s : String) (via : Channel) :
    (send_otp now rand newId st s via).2 = st
    ∨ (send_otp now rand newId st s via).2 = st ++
        [{ id := newId,
           identifier := if via = Channel.email then lower (strip s) else strip s,
           via := via, code := genCode rand, consumed := false,
           expires_at := StoredVal.time (now + tenMinutes), created_at := now,
           updated_at := none }] := by
  cases via with
  | email =>
    by_cases hv : is_valid_email (strip s) = true
    · right
      simp [send_otp, create_document, hv]
    · left
      have hf : is_valid_email (strip s) = false := by
        cases hb : is_valid_email (strip s)
        · rfl
        · exact absurd hb hv
      simp [send_otp, hf]
  | phone =>
    by_cases hv : is_valid_phone (strip s) = true
    · right
      simp [send_otp, create_document, hv]
    · left
      have hf : is_valid_phone (strip s) = false := by
        cases hb : is_valid_phone (strip s)
        · rfl
        · exact absurd hb hv
      simp [send_otp, hf]

/-- The body of `is_valid_phone`, at the list level, recognises exactly
the spec's phone syntax. -/
theorem phone_check_iff (l : List Char) :
    (decide (10 ≤ (if l.head? = some '+' then l.tail else l).length)
      && decide ((if l.head? = some '+' then l.tail else l).length ≤ 15)
      && (if l.head? = some '+' then l.tail else l).all (fun c => c.isDigit)) = true
    ↔ ∃ ds : List Char, (l = ds ∨ l = '+' :: ds)
        ∧ 10 ≤ ds.length ∧ ds.length ≤ 15 ∧ ∀ c ∈ ds, c.isDigit = true := by
  cases l with
  | nil =>
    constructor
    · intro h
      simp at h
    · rintro ⟨ds, h | h, h10, _, _⟩
      · subst h
        simp at h10
      · exact absurd h (by simp)
  | cons c t =>
    by_cases hc : c = '+'
    · subst hc
      have hcond : (('+' :: t).head? = some '+') := by simp
      rw [if_pos hcond]
      constructor
      · intro h
        simp only [Bool.and_eq_true, decide_eq_true_eq, List.all_eq_true] at h
        exact ⟨t, Or.inr rfl, h.1.1, h.1.2, fun x hx => h.2 x hx⟩
      · rintro ⟨ds, hds | hds, h10, h15, hdig⟩
        · exfalso
          have hmem : ('+' : Char) ∈ ds := by
            rw [← hds]
            exact List.mem_cons_self _ _
          have := hdig '+' hmem
          exact absurd this (by decide)
        · injection hds with h1 h2
          subst h2
          simp only [List.tail_cons, Bool.and_eq_true, decide_eq_true_eq, List.all_eq_true]
          exact ⟨⟨h10, h15⟩, fun x hx => hdig x hx⟩
    · have hcond : ¬ ((c :: t).head? = some '+') := by simpa using hc
      rw [if_neg hcond]
      constructor
      · intro h
        simp only [Bool.and_eq_true, decide_eq_true_eq, List.all_eq_true] at h
        exact ⟨c :: t, Or.inl rfl, h.1.1, h.1.2, fun x hx => h.2 x hx⟩
      · rintro ⟨ds, hds | hds, h10, h15, hdig⟩
        · subst hds
          simp only [Bool.and_eq_true, decide_eq_true_eq, List.all_eq_true]
          exact ⟨⟨h10, h15⟩, fun x hx => hdig x hx⟩
        · exfalso
          injection hds with h1 h2
          exact hc h1

/-- The source validator agrees with the spec's phone syntax. -/
theorem is_valid_phone_iff (s : String) : is_valid_phone s = true ↔ PhoneSpec s :=
  phone_check_iff (strip s).data

/-- Stripping before validating is redundant: `is_valid_phone` strips
its input itself. -/
theorem is_valid_phone_strip (s : String) : is_valid_phone (strip s) = is_valid_phone s := by
  unfold is_valid_phone
  rw [strip_strip]

/-! ### Claims -/

/-- C6: a send-otp request with via="phone" and identifier `s` passes
validation iff `s`, after trimming whitespace, consists of an optional
leading '+' followed by 10-15 decimal digits and nothing else;
otherwise the call fails with an InvalidIdentifier error (HTTP 400). -/
theorem C6_phone_send_validation (now : Int) (rand newId : Nat)
    (st : List OtpRecord) (s : String) :
    ((send_otp now rand newId st s Channel.phone).1 = SendResult.invalidIdentifier ↔ ¬ PhoneSpec s)
    ∧ ((send_otp now rand newId st s Channel.phone).1 ≠ SendResult.invalidIdentifier ↔ PhoneSpec s) := by
  have hv : is_valid_phone (strip s) = is_valid_phone s := is_valid_phone_strip s
  by_cases h : is_valid_phone s = true
  · have hp : PhoneSpec s := (is_valid_phone_iff s).mp h
    simp [send_otp, hv, h, hp]
  · have h' : is_valid_phone s = false := by
      cases hb : is_valid_phone s
      · rfl
      · exact absurd hb h
    have hp : ¬ PhoneSpec s := fun hps => h ((is_valid_phone_iff s).mpr hps)
    simp [send_otp, hv, h', hp]

/-- C1: a send-otp request with via="email" whose trimmed identifier
fails email validation is rejected with InvalidIdentifier (HTTP 400) and
the store is unchanged; moreover the store is only ever written when the
identifier passed the channel's validation. -/
theorem C1_email_validation_gate (now : Int) (rand newId : Nat)
    (st : List OtpRecord) (s : String) :
    (is_valid_email (strip s) = false →
      send_otp now rand newId st s Channel.email = (SendResult.invalidIdentifier, st))
    ∧ (∀ via, (send_otp now rand newId st s via).2 ≠ st →
        (via = Channel.email → is_valid_email (strip s) = true)
        ∧ (via = Channel.phone → is_valid_phone (strip s) = true)) := by
  constructor
  · intro h
    simp [send_otp, h]
  · intro via hne
    cases via with
    | email =>
      refine ⟨fun _ => ?_, fun hcontra => Channel.noConfusion hcontra⟩
      by_contra hbad
      have h0 : is_valid_email (strip s) = false := by
        cases hb : is_valid_email (strip s)
        · rfl
        · exact absurd hb hbad
      exact hne (by simp [send_otp, h0])
    | phone =>
      refine ⟨fun hcontra => Channel.noConfusion hcontra, fun _ => ?_⟩
      by_contra hbad
      have h0 : is_valid_phone (strip s) = false := by
        cases hb : is_valid_phone (strip s)
        · rfl
        · exact absurd hb hbad
      exact hne (by simp [send_otp, h0])

/-- Witness for C1 at the spec's own example "not-an-email". -/
theorem C1_email_validation_gate_witness :
    send_otp 0 0 1 [] "not-an-email" Channel.email = (SendResult.invalidIdentifier, []) :=
  (C1_email_validation_gate 0 0 1 [] "not-an-email").1 (by decide)

/-- C5: a record created for a valid email identifier stores the
trimmed identifier lower-cased; a record created for a valid phone
identifier stores the trimmed identifier with no other transformation. -/
theorem C5_stored_identifier (now : Int) (rand newId : Nat)
    (st : List OtpRecord) (e p : String) :
    (is_valid_email (strip e) = true →
      (send_otp now rand newId st e Channel.email).2 = st ++
        [{ id := newId, identifier := lower (strip e), via := Channel.email,
           code := genCode rand, consumed := false,
           expires_at := StoredVal.time (now + tenMinutes), created_at := now,
           updated_at := none }])
    ∧ (is_valid_phone p = true →
      (send_otp now rand newId st p Channel.phone).2 = st ++
        [{ id := newId, identifier := strip p, via := Channel.phone,
           code := genCode rand, consumed := false,
           expires_at := StoredVal.time (now + tenMinutes), created_at := now,
           updated_at := none }]) := by
  constructor
  · intro h
    simp [send_otp, h, create_document]
  · intro h
    simp [send_otp, is_valid_phone_strip, h, create_document]

/-- Witness for C5: a mixed-case email is stored lower-cased, a phone
number is stored as trimmed. -/
theorem C5_stored_identifier_witness :
    (send_otp 0 4213 1 [] " User@Example.com " Channel.email).2
      = [{ id := 1, identifier := "user@example.com", via := Channel.email, code := "004213",
           consumed := false, expires_at := StoredVal.time 600, created_at := 0,
           updated_at := none }]
    ∧ (send_otp 0 4213 1 [] " +15551234567 " Channel.phone).2
      = [{ id := 1, identifier := "+15551234567", via := Channel.phone, code := "004213",
           consumed := false, expires_at := StoredVal.time 600, created_at := 0,
           updated_at := none }] := by
  have h1 := (C5_stored_identifier 0 4213 1 [] " User@Example.com " " +15551234567 ").1 (by decide)
  have h2 := (C5_stored_identifier 0 4213 1 [] " User@Example.com " " +15551234567 ").2 (by decide)
  rw [h1, h2]
  constructor
  · decide
  · decide

/-- C7: every record `send_otp` creates carries an expiry equal to the
issuance time plus 10 minutes, and a verify-otp call made at a time
strictly later than the expiry of the (found, never-consumed) matching
record fails with CodeExpired, leaving the store unchanged. -/
theorem C7_expiry_window (now : Int) (rand newId : Nat) (st : List OtpRecord)
    (s : String) (via : Channel) (parse : String → Option Int) (now2 : Int)
    (token : String) (st2 : List OtpRecord) (idf otp : String) (r : OtpRecord) (t : Int) :
    (∀ r2 ∈ (send_otp now rand newId st s via).2,
        r2 ∈ st ∨ r2.expires_at = StoredVal.time (now + tenMinutes))
    ∧ (st2.find? (otpQuery idf otp) = some r → r.consumed = false →
        r.expires_at = StoredVal.time t → now2 > t →
        verify_otp parse now2 token st2 idf otp = (VerifyResult.codeExpired, st2)) := by
  constructor
  · intro r2 h2
    rcases send_otp_store now rand newId st s via with h | h
    · rw [h] at h2
      exact Or.inl h2
    · rw [h] at h2
      rcases List.mem_append.mp h2 with h3 | h3
      · exact Or.inl h3
      · right
        rw [List.mem_singleton.mp h3]
  · intro hfind hcons hexp hnow
    rw [verify_otp_found parse now2 token st2 idf otp r hfind, hexp]
    simp [hcons, parseStep, truthyExpiryCheck, hnow]

/-- Witness for C7: a code issued at time 0 expires at 600; verifying at
601 fails with CodeExpired. -/
theorem C7_expiry_window_witness :
    verify_otp (fun _ => none) 601 "tok" [sampleRec] "user@example.com" "004213"
      = (VerifyResult.codeExpired, [sampleRec]) :=
  (C7_expiry_window 0 0 1 [] "" Channel.email (fun _ => none) 601 "tok"
      [sampleRec] "user@example.com" "004213" sampleRec 600).2
    (by decide) (by decide) (by decide) (by decide)

/-- C10: a found, unconsumed record whose stored expiry is missing/None
(or an empty string value, on which the parse raises) fails with
CodeExpired rather than succeeding. -/
theorem C10_absent_expiry_fails_closed (parse : String → Option Int) (now : Int)
    (token : String) (st : List OtpRecord) (idf otp : String) (r : OtpRecord)
    (hfind : st.find? (otpQuery idf otp) = some r) (hcons : r.consumed = false)
    (habs : r.expires_at = StoredVal.null
      ∨ (r.expires_at = StoredVal.str "" ∧ parse "" = none)) :
    verify_otp parse now token st idf otp = (VerifyResult.codeExpired, st) := by
  rw [verify_otp_found parse now token st idf otp r hfind]
  rcases habs with h | ⟨h, hp⟩
  · rw [h]
    simp [hcons, parseStep, truthyExpiryCheck]
  · rw [h]
    simp [hcons, parseStep, hp, truthyExpiryCheck]

/-- Witness for C10 on a record with a missing expiry. -/
theorem C10_absent_expiry_fails_closed_witness :
    verify_otp (fun _ => none) 0 "tok" [{ sampleRec with expires_at := StoredVal.null }]
      "user@example.com" "004213"
      = (VerifyResult.codeExpired, [{ sampleRec with expires_at := StoredVal.null }]) :=
  C10_absent_expiry_fails_closed (fun _ => none) 0 "tok"
    [{ sampleRec with expires_at := StoredVal.null }] "user@example.com" "004213"
    { sampleRec with expires_at := StoredVal.null }
    (by decide) (by decide) (Or.inl (by decide))

/-- Counterexample for C3 as stated: on a found record whose stored
expiry is the unparseable non-empty string "not-a-timestamp", the call
does not fail as CodeExpired or InvalidCode (the "treated as
expired/invalid" verification failures): the line-125 comparison of a
datetime against a surviving string raises an uncaught TypeError,
surfacing as an HTTP 500. -/
theorem C3_counterexample :
    verify_otp (fun _ => none) 0 "tok" [badExpiryRec] "user@example.com" "004213"
      = (VerifyResult.typeError, [badExpiryRec])
    ∧ VerifyResult.typeError ≠ VerifyResult.codeExpired
    ∧ VerifyResult.typeError ≠ VerifyResult.invalidCode := by
  refine ⟨by decide, by decide, by decide⟩

/-- C3 (amended): a found record whose stored expiry is a string the
parse rejects never verifies: the store is unchanged and no token is
issued; when unconsumed, the call fails as CodeExpired if the string is
empty and as an uncaught TypeError (HTTP 500) otherwise — in no case is
the code treated as valid. -/
theorem C3_unparseable_expiry_never_verifies (parse : String → Option Int) (now : Int)
    (token : String) (st : List OtpRecord) (idf otp : String) (r : OtpRecord) (s : String)
    (hfind : st.find? (otpQuery idf otp) = some r)
    (hexp : r.expires_at = StoredVal.str s) (hparse : parse s = none) :
    (∀ tok2, (verify_otp parse now token st idf otp).1 ≠ VerifyResult.verified tok2)
    ∧ (verify_otp parse now token st idf otp).2 = st
    ∧ (r.consumed = false → s ≠ "" →
        (verify_otp parse now token st idf otp).1 = VerifyResult.typeError)
    ∧ (r.consumed = false → s = "" →
        (verify_otp parse now token st idf otp).1 = VerifyResult.codeExpired) := by
  rw [verify_otp_found parse now token st idf otp r hfind, hexp]
  cases hc : r.consumed with
  | true =>
    exact ⟨by simp [hc], by simp [hc], fun h => absurd h (by decide), fun h => absurd h (by decide)⟩
  | false =>
    by_cases hs : s = ""
    · subst hs
      simp [hc, parseStep, hparse, truthyExpiryCheck]
    · simp [hc, parseStep, hparse, truthyExpiryCheck, hs]

/-- Witness for the amended C3 at the concrete unparseable record. -/
theorem C3_unparseable_expiry_never_verifies_witness :
    (verify_otp (fun _ => none) 0 "tok" [badExpiryRec] "user@example.com" "004213").1
      = VerifyResult.typeError :=
  ((C3_unparseable_expiry_never_verifies (fun _ => none) 0 "tok" [badExpiryRec]
      "user@example.com" "004213" badExpiryRec "not-a-timestamp"
      (by decide) (by decide) rfl).2.2.1) (by decide) (by decide)

/-- C8: for a valid email identifier `e` and a casing variant `e2`
(equal lower-casings of the trims), any record whose stored identifier
is the lower-cased trim of `e` and whose code matches satisfies the
verifier's query for `e2`; in particular, an OTP issued for `e` into an
empty store verifies successfully with identifier `e2`. -/
theorem C8_email_casing_match (now now2 : Int) (rand newId : Nat)
    (e e2 : String) (parse : String → Option Int) (token : String)
    (hcase : lower (strip e) = lower (strip e2))
    (hval : is_valid_email (strip e) = true)
    (hfresh : ¬ now2 > now + tenMinutes) :
    (∀ r : OtpRecord, r.identifier = lower (strip e) → r.code = genCode rand →
        otpQuery e2 (genCode rand) r = true)
    ∧ (verify_otp parse now2 token ((send_otp now rand newId [] e Channel.email).2)
        e2 (genCode rand)).1 = VerifyResult.verified token := by
  have hq : ∀ r : OtpRecord, r.identifier = lower (strip e) → r.code = genCode rand →
      otpQuery e2 (genCode rand) r = true := by
    intro r h1 h2
    simp [otpQuery, h1, h2, hcase]
  refine ⟨hq, ?_⟩
  have hst : (send_otp now rand newId [] e Channel.email).2
      = [{ id := newId, identifier := lower (strip e), via := Channel.email,
           code := genCode rand, consumed := false,
           expires_at := StoredVal.time (now + tenMinutes), created_at := now,
           updated_at := none }] := by
    simp [send_otp, create_document, hval]
  rw [hst]
  have hmatch : otpQuery e2 (genCode rand)
      { id := newId, identifier := lower (strip e), via := Channel.email,
        code := genCode rand, consumed := false,
        expires_at := StoredVal.time (now + tenMinutes), created_at := now,
        updated_at := none } = true :=
    hq _ rfl rfl
  simp [verify_otp, verifyDecide, List.find?_cons_of_pos _ hmatch, parseStep,
    truthyExpiryCheck, hfresh, decisionResult]

/-- Witness for C8: the spec's end-to-end scenario, issuing for
"user@example.com" and verifying as " User@Example.com ". -/
theorem C8_email_casing_match_witness :
    (verify_otp (fun _ => none) 10 "tok"
        ((send_otp 0 4213 1 [] "user@example.com" Channel.email).2)
        " User@Example.com " "004213").1 = VerifyResult.verified "tok" := by
  have h := (C8_email_casing_match 0 10 4213 1 "user@example.com" " User@Example.com "
      (fun _ => none) "tok" (by decide) (by decide) (by decide)).2
  exact h

/-- C2: a found, still-valid, unconsumed record verifies exactly once:
the first call returns "verified" with the session token and flips the
record's consumed flag, the identical second call fails with
CodeAlreadyUsed; and neither a verify-otp nor a send-otp call ever turns
any record's consumed flag from true back to false. -/
theorem C2_single_use (parse : String → Option Int) (now1 now2 : Int) (tok1 tok2 : String)
    (pre post : List OtpRecord) (r : OtpRecord) (idf otp : String) (t : Int)
    (hpre : ∀ x ∈ pre, otpQuery idf otp x = false)
    (hprid : ∀ x ∈ pre, x.id ≠ r.id)
    (hr : otpQuery idf otp r = true)
    (hcons : r.consumed = false)
    (hexp : r.expires_at = StoredVal.time t)
    (hnow : ¬ now1 > t) :
    verify_otp parse now1 tok1 (pre ++ r :: post) idf otp
      = (VerifyResult.verified tok1,
         pre ++ { r with consumed := true, updated_at := some now1 } :: post)
    ∧ verify_otp parse now2 tok2
        (pre ++ { r with consumed := true, updated_at := some now1 } :: post) idf otp
      = (VerifyResult.codeAlreadyUsed,
         pre ++ { r with consumed := true, updated_at := some now1 } :: post)
    ∧ (∀ (parse2 : String → Option Int) (n : Int) (tok : String) (st2 : List OtpRecord)
        (idf2 otp2 : String) (i : Nat) (rr rr' : OtpRecord), st2[i]? = some rr →
        ((verify_otp parse2 n tok st2 idf2 otp2).2)[i]? = some rr' →
        rr.consumed = true → rr'.consumed = true)
    ∧ (∀ (n : Int) (rand newId : Nat) (st2 : List OtpRecord) (s2 : String) (via : Channel)
        (i : Nat) (rr rr' : OtpRecord), st2[i]? = some rr →
        ((send_otp n rand newId st2 s2 via).2)[i]? = some rr' →
        rr.consumed = true → rr'.consumed = true) := by
  have hfind1 : (pre ++ r :: post).find? (otpQuery idf otp) = some r :=
    find?_middle _ pre post r hpre hr
  have hset : set_consumed r.id now1 (pre ++ r :: post)
      = pre ++ { r with consumed := true, updated_at := some now1 } :: post :=
    set_consumed_middle r.id now1 pre post r hprid rfl
  refine ⟨?_, ?_, ?_, ?_⟩
  · rw [verify_otp_found parse now1 tok1 _ idf otp r hfind1, hexp]
    simp [hcons, parseStep, truthyExpiryCheck, hnow, hset, hexp]
  · have hr2 : otpQuery idf otp { r with consumed := true, updated_at := some now1 } = true := hr
    have hfind2 : (pre ++ { r with consumed := true, updated_at := some now1 } :: post).find?
        (otpQuery idf otp) = some { r with consumed := true, updated_at := some now1 } :=
      find?_middle _ pre post _ hpre hr2
    rw [verify_otp_found parse now2 tok2 _ idf otp _ hfind2]
    simp
  · intro parse2 n tok st2 idf2 otp2 i rr rr' h1 h2 h3
    unfold verify_otp at h2
    cases hd : verifyDecide parse2 n st2 idf2 otp2 with
    | fail err =>
      rw [hd] at h2
      simp only [decisionCommit] at h2
      rw [h1] at h2
      cases h2
      exact h3
    | consume d =>
      rw [hd] at h2
      simp only [decisionCommit] at h2
      exact set_consumed_mono d n st2 i rr rr' h1 h2 h3
  · intro n rand newId st2 s2 via i rr rr' h1 h2 h3
    rcases send_otp_store n rand newId st2 s2 via with h | h
    · rw [h, h1] at h2
      cases h2
      exact h3
    · rw [h] at h2
      have hi : i < st2.length := by
        rcases List.getElem?_eq_some.mp h1 with ⟨hh, _⟩
        exact hh
      rw [List.getElem?_append, if_pos hi, h1] at h2
      cases h2
      exact h3

/-- Witness for C2 on a one-record store. -/
theorem C2_single_use_witness :
    verify_otp (fun _ => none) 10 "tok1" [sampleRec] "user@example.com" "004213"
      = (VerifyResult.verified "tok1",
         [{ sampleRec with consumed := true, updated_at := some 10 }])
    ∧ verify_otp (fun _ => none) 20 "tok2"
        [{ sampleRec with consumed := true, updated_at := some 10 }]
        "user@example.com" "004213"
      = (VerifyResult.codeAlreadyUsed,
         [{ sampleRec with consumed := true, updated_at := some 10 }]) := by
  have h := C2_single_use (fun _ => none) 10 20 "tok1" "tok2" [] [] sampleRec
    "user@example.com" "004213" 600
    (by intro x hx; cases hx) (by intro x hx; cases hx)
    (by decide) (by decide) (by decide) (by decide)
  exact ⟨h.1, h.2.1⟩

/-- C9: a successful verify-otp call rewrites exactly the found record,
changing only its consumed flag (to true) and its updated_at stamp (to
the call time); id, identifier, channel, code, expires_at and created_at
keep their values, every other record is untouched, and no verify-otp
call ever deletes a record. -/
theorem C9_success_frame (parse : String → Option Int) (now : Int) (token : String)
    (pre post : List OtpRecord) (r : OtpRecord) (idf otp : String) (t : Int)
    (hpre : ∀ x ∈ pre, otpQuery idf otp x = false)
    (hprid : ∀ x ∈ pre, x.id ≠ r.id)
    (hr : otpQuery idf otp r = true)
    (hcons : r.consumed = false)
    (hexp : r.expires_at = StoredVal.time t)
    (hnow : ¬ now > t) :
    verify_otp parse now token (pre ++ r :: post) idf otp
      = (VerifyResult.verified token,
         pre ++ { r with consumed := true, updated_at := some now } :: post)
    ∧ ({ r with consumed := true, updated_at := some now } : OtpRecord).id = r.id
    ∧ ({ r with consumed := true, updated_at := some now } : OtpRecord).identifier = r.identifier
    ∧ ({ r with consumed := true, updated_at := some now } : OtpRecord).via = r.via
    ∧ ({ r with consumed := true, updated_at := some now } : OtpRecord).code = r.code
    ∧ ({ r with consumed := true, updated_at := some now } : OtpRecord).expires_at = r.expires_at
    ∧ ({ r with consumed := true, updated_at := some now } : OtpRecord).created_at = r.created_at
    ∧ ({ r with consumed := true, updated_at := some now } : OtpRecord).consumed = true
    ∧ ({ r with consumed := true, updated_at := some now } : OtpRecord).updated_at = some now
    ∧ (∀ parse2 n tok2 st2 idf2 otp2,
        ((verify_otp parse2 n tok2 st2 idf2 otp2).2).length = st2.length) := by
  have hfind1 : (pre ++ r :: post).find? (otpQuery idf otp) = some r :=
    find?_middle _ pre post r hpre hr
  have hset : set_consumed r.id now (pre ++ r :: post)
      = pre ++ { r with consumed := true, updated_at := some now } :: post :=
    set_consumed_middle r.id now pre post r hprid rfl
  refine ⟨?_, rfl, rfl, rfl, rfl, rfl, rfl, rfl, rfl, ?_⟩
  · rw [verify_otp_found parse now token _ idf otp r hfind1, hexp]
    simp [hcons, parseStep, truthyExpiryCheck, hnow, hset, hexp]
  · intro parse2 n tok2 st2 idf2 otp2
    unfold verify_otp
    cases hd : verifyDecide parse2 n st2 idf2 otp2 with
    | fail err => simp [decisionCommit]
    | consume d => simp [decisionCommit, set_consumed_length]

/-- Witness for C9 on a two-record store: only the matching record is
rewritten, the other is untouched. -/
theorem C9_success_frame_witness :
    verify_otp (fun _ => none) 10 "tok" [otherRec, sampleRec] "User@example.com" "004213"
      = (VerifyResult.verified "tok",
         [otherRec, { sampleRec with consumed := true, updated_at := some 10 }]) := by
  have h := (C9_success_frame (fun _ => none) 10 "tok" [otherRec] [] sampleRec
    "User@example.com" "004213" 600
    (by decide) (by decide) (by decide) (by decide) (by decide) (by decide)).1
  exact h

/-- C4 (refutation of the claimed one-winner guarantee): the consume
step of `verify_otp` is a plain read (`find_one`) followed by an
unconditional `$set` filtered only on `_id` (line 129), not a
compare-and-swap on `consumed`; under the interleaving in which both
calls read before either writes, two verify-otp attempts on the same
still-valid, unconsumed record BOTH return "verified". -/
theorem C4_race_both_succeed :
    (verifyRace (fun _ => none) 0 0 "tok1" "tok2" [sampleRec] "user@example.com" "004213").1
      = VerifyResult.verified "tok1"
    ∧ (verifyRace (fun _ => none) 0 0 "tok1" "tok2" [sampleRec] "user@example.com" "004213").2.1
      = VerifyResult.verified "tok2" :=
  ⟨by decide, by decide⟩

end OtpCore
